import Mathlib

/-
Verification of the consul generic-resource type registry and read pipeline.

Source of truth for the registry: src/internal/resource/registry.go.
The read pipeline (the grpc resource service Read endpoint) is present in the
repository only through its tests (src/agent/grpc-external/services/resource/
read_test.go); the pipeline itself is modelled from the specification, as
marked on each such definition.

Strings are embedded as List Char; Go machine strings are byte strings but all
identifiers involved here are ASCII, so Char-level modelling is faithful.
-/

set_option autoImplicit false

namespace ConsulRes

/-- Lowercase ASCII letter, the class written a-z in the source regexes. -/
def isLowerCh (c : Char) : Bool := 'a' ≤ c && c ≤ 'z'

/-- ASCII digit, the class written 0-9 (or backslash-d) in the source regexes. -/
def isDigitCh (c : Char) : Bool := '0' ≤ c && c ≤ '9'

/-- Uppercase ASCII letter, the class written A-Z in the source regexes. -/
def isUpperCh (c : Char) : Bool := 'A' ≤ c && c ≤ 'Z'

/-- Character class of the one-or-more tail of groupRegexp (registry.go:19). -/
def isGroupBodyChar (c : Char) : Bool := isLowerCh c || isDigitCh c || c == '_'

/-- Character class of the one-or-more tail of kindRegexp (registry.go:21). -/
def isKindBodyChar (c : Char) : Bool := isUpperCh c || isLowerCh c || isDigitCh c

/-- groupRegexp from registry.go:19, anchored: a lowercase letter followed by
one or more of lowercase, digit or underscore. -/
def groupMatch : List Char → Bool
  | [] => false
  | c :: rest => isLowerCh c && !rest.isEmpty && rest.all isGroupBodyChar

/-- Matcher for the suffix of groupVersionRegexp after the leading v: an
optional run of lowercase-or-digit characters followed by a final digit. -/
def gvTail : List Char → Bool
  | [] => false
  | [c] => isDigitCh c
  | c :: rest => (isLowerCh c || isDigitCh c) && gvTail rest

/-- groupVersionRegexp from registry.go:20, anchored: a leading v, then an
optional lowercase-or-digit run, then a final digit. -/
def gvMatch : List Char → Bool
  | [] => false
  | c :: rest => c == 'v' && gvTail rest

/-- kindRegexp from registry.go:21, anchored: an uppercase letter followed by
one or more letters or digits. -/
def kindMatch : List Char → Bool
  | [] => false
  | c :: rest => isUpperCh c && !rest.isEmpty && rest.all isKindBodyChar

/-- pbresource.Type: the structured (Group, GroupVersion, Kind) identifier. -/
structure ResourceType where
  group : List Char
  groupVersion : List Char
  kind : List Char
deriving DecidableEq

/-- Validity of a type key: each component matches its regex from registry.go. -/
def validKey (t : ResourceType) : Prop :=
  groupMatch t.group = true ∧ gvMatch t.groupVersion = true ∧ kindMatch t.kind = true

instance (t : ResourceType) : Decidable (validKey t) := by
  unfold validKey; infer_instance

/-- ToGVK (registry.go:187-189): the canonical dotted string of a type key. -/
def toGVK (t : ResourceType) : List Char :=
  t.group ++ ('.' :: (t.groupVersion ++ ('.' :: t.kind)))

/-- Prepend a character onto the first piece of a split (helper mirroring how
Go strings.Split accumulates the piece before each separator). -/
def consHead (c : Char) : List (List Char) → List (List Char)
  | [] => [[c]]
  | s :: ss => (c :: s) :: ss

/-- Go strings.Split(s, ".") for the one-character separator: the pieces of s
between occurrences of a dot; the empty string yields one empty piece. -/
def splitOnDot : List Char → List (List Char)
  | [] => [[]]
  | c :: rest => if c = '.' then [] :: splitOnDot rest else consHead c (splitOnDot rest)

/-- Failure of ParseGVK (registry.go:194): the input did not have exactly
three dot-separated parts; the payload is the offending input, which the Go
error message interpolates. -/
inductive GVKParseErr where
  | malformed (got : List Char)
deriving DecidableEq

/-- ParseGVK (registry.go:191-201): split on dots, demand exactly three parts,
and rebuild the type key; no per-segment validation is performed. -/
def parseGVK (gvk : List Char) : Except GVKParseErr ResourceType :=
  match splitOnDot gvk with
  | [g, v, k] => .ok ⟨g, v, k⟩
  | _ => .error (.malformed gvk)

/-- True exactly on the ok branch of an Except (Go's err == nil). -/
def isOkE {ε α : Type} : Except ε α → Bool
  | .ok _ => true
  | .error _ => false

/-- pbresource.Tenancy; a nil Go pointer behaves as all-empty fields through
the generated Get accessors, so the fields are plain strings here. -/
structure Tenancy where
  partition : List Char
  ns : List Char
  peerName : List Char
deriving DecidableEq

/-- pbresource.ID: resource identity. Type is a nilable pointer in Go. -/
structure Identity where
  typ : Option ResourceType
  tenancy : Tenancy
  name : List Char
  uid : List Char
deriving DecidableEq

/-- Opaque stored payload of a record (the Data field); its structure is never
inspected by this core, only handed to hooks. -/
abbrev RecordData : Type := List Char

/-- A stored resource: its identity plus opaque data. -/
structure Record where
  id : Identity
  data : RecordData
deriving DecidableEq

/-- Outcome of one capability check by the external authorizer. -/
inductive AuthDecision where
  | allow
  | deny
deriving DecidableEq

/-- The external authorizer, consumed as an opaque allow/deny oracle per
capability string (spec section 6): here the two operator capabilities the
default hooks consult. -/
structure Authorizer where
  operatorRead : Bool
  operatorWrite : Bool
deriving DecidableEq

/-- A read-authorization hook (ACLAuthorizeReadHook, registry.go:67). The Go
hook is an opaque function value; following spec section 4.3.4 a hook either
decides from the identity alone or needs the stored data (a data-dependent
ACL), so the embedding records which of the two policies the hook implements. -/
inductive ReadHook where
  | identityOnly (f : Authorizer → Identity → AuthDecision)
  | dataDependent (f : Authorizer → Identity → RecordData → AuthDecision)

/-- A write-authorization hook (ACLAuthorizeWriteHook, registry.go:68). -/
def WriteHook : Type := Authorizer → Record → AuthDecision

/-- A list-authorization hook (ACLAuthorizeListHook, registry.go:69): in Go it
receives the authorizer and a context, no identity and no data. -/
def ListHook : Type := Authorizer → AuthDecision

/-- ACLHooks (registry.go:71-87); each field is a nilable function in Go. -/
structure ACLHooks where
  read : Option ReadHook
  write : Option WriteHook
  list : Option ListHook

/-- The zero ACLHooks value written by registry.go:135 when ACLs is nil. -/
def emptyACLHooks : ACLHooks := ⟨none, none, none⟩

/-- A validation hook (registry.go:38): inspects a resource, returns an error
message or nil. -/
def ValidationHook : Type := Record → Option (List Char)

/-- A mutation hook (registry.go:43): may rewrite the resource or fail; the
in-place Go mutation is rendered functionally as returning the new record. -/
def MutationHook : Type := Record → Except (List Char) Record

/-- Modelled from the spec: the tenancy scope of a resource kind (the Scope
type referenced at registry.go:64 is declared outside src/); spec section 3
gives the three values. -/
inductive Scope where
  | ClusterScope
  | PartitionScope
  | NamespaceScope
deriving DecidableEq

/-- Registration (registry.go:45-65). The Proto schema descriptor field is
omitted: it is an opaque protobuf message never inspected by this core. -/
structure Registration where
  typ : ResourceType
  acls : Option ACLHooks
  validate : Option ValidationHook
  mutate : Option MutationHook
  scope : Scope

/-- Default read hook installed by registry.go:137-141: requires the
operator:read capability, ignoring the identity. -/
def defaultReadHook : ReadHook :=
  .identityOnly fun authz _ => if authz.operatorRead then .allow else .deny

/-- Default write hook installed by registry.go:142-146: requires the
operator:write capability, ignoring the resource. -/
def defaultWriteHook : WriteHook :=
  fun authz _ => if authz.operatorWrite then .allow else .deny

/-- Default list hook installed by registry.go:147-151: a blanket
operator:read capability check (on a fresh empty authorizer context),
independent of any per-item read filtering. -/
def defaultListHook : ListHook :=
  fun authz => if authz.operatorRead then .allow else .deny

/-- Default validation hook installed by registry.go:154-156: a no-op. -/
def defaultValidationHook : ValidationHook := fun _ => none

/-- Default mutation hook installed by registry.go:159-161: a no-op. -/
def defaultMutationHook : MutationHook := fun r => .ok r

/-- Hook defaulting performed by Register (registry.go:133-161): any absent
hook is replaced by its default before the registration is stored. -/
def applyDefaults (r : Registration) : Registration :=
  let hooks := r.acls.getD emptyACLHooks
  { r with
    acls := some
      { read := some (hooks.read.getD defaultReadHook)
        write := some (hooks.write.getD defaultWriteHook)
        list := some (hooks.list.getD defaultListHook) }
    validate := some (r.validate.getD defaultValidationHook)
    mutate := some (r.mutate.getD defaultMutationHook) }

/-- The registrations map of TypeRegistry (registry.go:90-94), keyed by the
canonical GVK string; rendered as an association list whose keys are kept
unique by register itself. -/
abbrev RegistryState : Type := List (List Char × Registration)

/-- Map lookup by GVK key string. -/
def lookupKey : RegistryState → List Char → Option Registration
  | [], _ => none
  | (k, r) :: rest, key => if k = key then some r else lookupKey rest key

/-- Key-membership test (the comma-ok map probe at registry.go:129). -/
def containsKey (s : RegistryState) (key : List Char) : Bool :=
  (lookupKey s key).isSome

/-- The fatal outcomes of Register (its panic calls, registry.go:110-131);
each payload is exactly the value the Go format string interpolates. -/
inductive RegisterFatal where
  | emptyField
  | badGroup (got : List Char)
  | badGroupVersion (got : List Char)
  | badKind (got : List Char)
  | duplicateType (key : List Char)
deriving DecidableEq

/-- Register (registry.go:110-164): empty-field check, the three regex checks
(note registry.go:120 interpolates typ.Group into the GroupVersion message),
duplicate-key check, hook defaulting, insertion. A panic is rendered as the
error branch of Except. -/
def register (s : RegistryState) (r : Registration) : Except RegisterFatal RegistryState :=
  if r.typ.group = [] ∨ r.typ.groupVersion = [] ∨ r.typ.kind = [] then
    .error .emptyField
  else if groupMatch r.typ.group = false then
    .error (.badGroup r.typ.group)
  else if gvMatch r.typ.groupVersion = false then
    .error (.badGroupVersion r.typ.group)
  else if kindMatch r.typ.kind = false then
    .error (.badKind r.typ.kind)
  else if containsKey s (toGVK r.typ) then
    .error (.duplicateType (toGVK r.typ))
  else
    .ok ((toGVK r.typ, applyDefaults r) :: s)

/-- Resolve (registry.go:166-174): lookup by the canonical GVK string; the
Go (Registration, ok) pair is rendered as an Option. -/
def resolve (s : RegistryState) (typ : ResourceType) : Option Registration :=
  lookupKey s (toGVK typ)

/-- Types (registry.go:176-185): a snapshot of all stored registrations. -/
def typesOf (s : RegistryState) : List Registration :=
  s.map (fun e => e.2)

/-- Modelled from the spec: the reserved Tombstone type key (its defining
constant TypeV1Tombstone, referenced at registry.go:104, lives outside src/);
the spec fixes only that it is a reserved, always-registered kind. -/
def TypeV1Tombstone : ResourceType :=
  ⟨"internal".toList, "v1".toList, "Tombstone".toList⟩

/-- The implicit bootstrap registration of registry.go:103-106: the Tombstone
type with no custom hooks; its scope is not constrained by the spec. -/
def tombstoneRegistration : Registration :=
  { typ := TypeV1Tombstone, acls := none, validate := none, mutate := none,
    scope := .ClusterScope }

/-- NewRegistry (registry.go:96-108): the fresh registry already holds the
Tombstone registration before it is returned; the registration of the valid,
fresh Tombstone key cannot fail, so the error branch is vacuous. -/
def NewRegistry : RegistryState :=
  ((register [] tombstoneRegistration).toOption).getD []

/-- Registry states a caller can observe: the freshly constructed registry
and anything produced from it by successful Register calls (Register is the
only mutator of the registrations map). -/
inductive Reachable : RegistryState → Prop
  | init : Reachable NewRegistry
  | step {s s' : RegistryState} {r : Registration} :
      Reachable s → register s r = .ok s' → Reachable s'

/-- The two backend read modes of spec section 4.4. -/
inductive ReadConsistency where
  | eventual
  | strong
deriving DecidableEq

/-- Storage backend errors, per spec section 6. -/
inductive BackendErr where
  | notFound
  | unavailable
  | internalFault
deriving DecidableEq

/-- Modelled from the spec: the storage backend's Read contract (spec
section 6); the backend itself is an external collaborator. -/
def Backend : Type := ReadConsistency → Identity → Except BackendErr Record

/-- Modelled from the spec: a read request; the Boolean renders the explicit
out-of-band strong-consistency signal of spec section 4.4 (the test suite
sets it through the x-consul-consistency-mode gRPC header). -/
structure ReadRequest where
  id : Option Identity
  strongConsistency : Bool

/-- The tenancy field a scope violation names. -/
inductive TenancyField where
  | partitionField
  | namespaceField
deriving DecidableEq

/-- Terminal errors of the read pipeline, one constructor per distinct error
message of spec sections 4.3 and 7. -/
inductive ReadErr where
  | idRequired
  | typeRequired
  | nameRequired
  | scopeViolation (scope : Scope) (field : TenancyField)
  | groupVersionMismatch (requested registeredAs : List Char)
  | typeNotRegistered (gvk : List Char)
  | notFound
  | permissionDenied
  | unavailable
  | internalFault
deriving DecidableEq

/-- Caller-visible error classes (grpc status codes), spec section 7. -/
inductive ErrCode where
  | invalidArgument
  | notFound
  | permissionDenied
  | unavailable
  | internalFault
deriving DecidableEq

/-- The error class each terminal read error belongs to (spec section 7). -/
def ReadErr.code : ReadErr → ErrCode
  | .idRequired => .invalidArgument
  | .typeRequired => .invalidArgument
  | .nameRequired => .invalidArgument
  | .scopeViolation _ _ => .invalidArgument
  | .groupVersionMismatch _ _ => .invalidArgument
  | .typeNotRegistered _ => .invalidArgument
  | .notFound => .notFound
  | .permissionDenied => .permissionDenied
  | .unavailable => .unavailable
  | .internalFault => .internalFault

/-- Modelled from the spec: the tenancy/scope validator of spec sections 3
and 4.2 (its implementation is outside src/): it rejects exactly a populated
field that the resolved scope forbids, naming the offending rule. -/
def validateScope (scope : Scope) (t : Tenancy) : Option ReadErr :=
  match scope with
  | .ClusterScope =>
    if t.partition ≠ [] then some (.scopeViolation .ClusterScope .partitionField)
    else if t.ns ≠ [] then some (.scopeViolation .ClusterScope .namespaceField)
    else none
  | .PartitionScope =>
    if t.ns ≠ [] then some (.scopeViolation .PartitionScope .namespaceField)
    else none
  | .NamespaceScope => none

/-- First stored registration sharing Group and Kind with the requested type
(the by-(Group, Kind) probe of spec section 4.3 step 3). -/
def findGroupKind (s : RegistryState) (t : ResourceType) : Option Registration :=
  match s with
  | [] => none
  | (_, reg) :: rest =>
    if reg.typ.group = t.group ∧ reg.typ.kind = t.kind then some reg
    else findGroupKind rest t

/-- Modelled from the spec: type resolution inside the read pipeline (spec
section 4.3 step 3, implemented outside src/): resolution is by the full
TypeKey; on a miss, a same-Group-and-Kind registration turns the failure into
the GroupVersion-mismatch error, otherwise the not-registered error. -/
def resolveForRead (s : RegistryState) (t : ResourceType) : Except ReadErr Registration :=
  match resolve s t with
  | some reg => .ok reg
  | none =>
    match findGroupKind s t with
    | some other => .error (.groupVersionMismatch t.groupVersion other.typ.groupVersion)
    | none => .error (.typeNotRegistered (toGVK t))

/-- Modelled from the spec: the consistency selector of spec section 4.4 —
eventual when unspecified, strong exactly when explicitly signalled. -/
def chooseConsistency (req : ReadRequest) : ReadConsistency :=
  if req.strongConsistency then .strong else .eventual

/-- Backend errors surfaced unchanged as their equivalent class (spec
section 4.3 step 5). -/
def mapBackendErr : BackendErr → ReadErr
  | .notFound => .notFound
  | .unavailable => .unavailable
  | .internalFault => .internalFault

/-- The read hook a stored registration carries; Register guarantees the
options are populated, with the operator-read default as the fallback. -/
def readHookOf (reg : Registration) : ReadHook :=
  ((reg.acls.getD emptyACLHooks).read).getD defaultReadHook

/-- The list hook a stored registration carries, defaulted the same way. -/
def listHookOf (reg : Registration) : ListHook :=
  ((reg.acls.getD emptyACLHooks).list).getD defaultListHook

/-- Modelled from the spec: authorization and fetch, spec section 4.3 steps
4-5. An identity-only hook is consulted first and a denial is PermissionDenied
without touching the fetched result; a data-dependent hook forces the fetch
outcome to be examined first, so a backend miss is NotFound and only a present
record can be denied. -/
def authorizeAndFetch (reg : Registration) (authz : Authorizer) (id : Identity)
    (fetched : Except BackendErr Record) : Except ReadErr Record :=
  match readHookOf reg with
  | .identityOnly f =>
    match f authz id with
    | .deny => .error .permissionDenied
    | .allow =>
      match fetched with
      | .error e => .error (mapBackendErr e)
      | .ok rec => .ok rec
  | .dataDependent f =>
    match fetched with
    | .error e => .error (mapBackendErr e)
    | .ok rec =>
      match f authz id rec.data with
      | .deny => .error .permissionDenied
      | .allow => .ok rec

/-- Modelled from the spec: the read pipeline of spec section 4.3 (its
implementation is outside src/; src holds only its tests): structural
validation, type resolution with the two-way InvalidArgument distinction,
tenancy validation against the resolved scope, then authorization and the
backend fetch at the selected consistency. -/
def readPipeline (s : RegistryState) (b : Backend) (authz : Authorizer)
    (req : ReadRequest) : Except ReadErr Record :=
  match req.id with
  | none => .error .idRequired
  | some id =>
    match id.typ with
    | none => .error .typeRequired
    | some typ =>
      if id.name = [] then .error .nameRequired
      else
        match resolveForRead s typ with
        | .error e => .error e
        | .ok reg =>
          match validateScope reg.scope id.tenancy with
          | some e => .error e
          | none => authorizeAndFetch reg authz id (b (chooseConsistency req) id)

/-- A stored registration is complete: its hook containers and all five hooks
are populated (the non-nil invariant of spec section 3). -/
def completeReg (r : Registration) : Prop :=
  (∃ h, r.acls = some h ∧ h.read.isSome = true ∧ h.write.isSome = true ∧
    h.list.isSome = true) ∧
  r.validate.isSome = true ∧ r.mutate.isSome = true

/-- Evaluate a registration's (defaulted) read hook on concrete inputs,
feeding data only to a data-dependent hook. -/
def applyReadHook (reg : Registration) (a : Authorizer) (id : Identity)
    (d : RecordData) : AuthDecision :=
  match readHookOf reg with
  | .identityOnly f => f a id
  | .dataDependent f => f a id d

/-- Register and keep the new state, or keep the old state on a fatal error;
used only to build concrete example states whose registrations succeed. -/
def regOrSelf (s : RegistryState) (r : Registration) : RegistryState :=
  ((register s r).toOption).getD s

/-- The demo.v2.Artist type key of the test suite. -/
def demoV2Artist : ResourceType := ⟨"demo".toList, "v2".toList, "Artist".toList⟩

/-- The demo.v1.Artist type key of the test suite. -/
def demoV1Artist : ResourceType := ⟨"demo".toList, "v1".toList, "Artist".toList⟩

/-- The never-registered demo.v2.Unicorn type key of the spec. -/
def demoV2Unicorn : ResourceType := ⟨"demo".toList, "v2".toList, "Unicorn".toList⟩

/-- The demo.v1.RecordLabel type key of the test suite. -/
def demoV1RecordLabel : ResourceType :=
  ⟨"demo".toList, "v1".toList, "RecordLabel".toList⟩

/-- The demo.v1.Executive type key of the test suite. -/
def demoV1Executive : ResourceType :=
  ⟨"demo".toList, "v1".toList, "Executive".toList⟩

/-- A namespace-scoped Artist registration relying entirely on default hooks. -/
def artistV2Registration : Registration :=
  { typ := demoV2Artist, acls := none, validate := none, mutate := none,
    scope := .NamespaceScope }

/-- A cluster-scoped Executive registration relying on default hooks. -/
def executiveRegistration : Registration :=
  { typ := demoV1Executive, acls := none, validate := none, mutate := none,
    scope := .ClusterScope }

/-- An identity-only read hook that denies every caller (the behavior the
artist read policy produces for an unauthorized token). -/
def artistDenyReadHook : ReadHook := .identityOnly fun _ _ => .deny

/-- A data-dependent read hook that denies after seeing the stored data (the
record-label read ACL of the test suite requires reading the data). -/
def labelDataReadHook : ReadHook := .dataDependent fun _ _ _ => .deny

/-- Artist registration whose read hook denies on identity alone. -/
def artistDenyRegistration : Registration :=
  { typ := demoV2Artist,
    acls := some ⟨some artistDenyReadHook, none, none⟩,
    validate := none, mutate := none, scope := .NamespaceScope }

/-- Partition-scoped RecordLabel registration with a data-dependent read ACL. -/
def labelRegistration : Registration :=
  { typ := demoV1RecordLabel,
    acls := some ⟨some labelDataReadHook, none, none⟩,
    validate := none, mutate := none, scope := .PartitionScope }

/-- An identity-only read hook that allows every caller. -/
def allowAllReadHook : ReadHook := .identityOnly fun _ _ => .allow

/-- Artist registration with a custom allow-all Read hook and a nil List
hook: the failing input of the default-List-hook divergence. -/
def c2Registration : Registration :=
  { typ := demoV2Artist,
    acls := some ⟨some allowAllReadHook, none, none⟩,
    validate := none, mutate := none, scope := .NamespaceScope }

/-- Registry holding the c2 Artist registration. -/
def c2State : RegistryState := regOrSelf NewRegistry c2Registration

/-- Registry holding the data-dependent label kind and the identity-denying
artist kind. -/
def c1State : RegistryState :=
  regOrSelf (regOrSelf NewRegistry labelRegistration) artistDenyRegistration

/-- Registry holding only the default-hook Artist kind (plus Tombstone). -/
def c3State : RegistryState := regOrSelf NewRegistry artistV2Registration

/-- Registry holding the cluster-scoped Executive kind (plus Tombstone). -/
def c6State : RegistryState := regOrSelf NewRegistry executiveRegistration

/-- An authorizer holding both operator capabilities. -/
def anyAuthz : Authorizer := ⟨true, true⟩

/-- An authorizer holding neither operator capability. -/
def noOpAuthz : Authorizer := ⟨false, false⟩

/-- Identity of a concrete record label (partition-scoped: empty namespace). -/
def labelIdentity : Identity :=
  { typ := some demoV1RecordLabel,
    tenancy := ⟨"default".toList, [], "local".toList⟩,
    name := "blink1982".toList, uid := [] }

/-- Identity of a concrete artist (namespace-scoped tenancy fully populated). -/
def artistIdentity : Identity :=
  { typ := some demoV2Artist,
    tenancy := ⟨"default".toList, "default".toList, "local".toList⟩,
    name := "korn".toList, uid := [] }

/-- Artist identity readdressed at the unregistered v1 GroupVersion. -/
def artistV1Identity : Identity :=
  { artistIdentity with typ := some demoV1Artist }

/-- Identity of an unregistered unicorn resource. -/
def unicornIdentity : Identity :=
  { artistIdentity with typ := some demoV2Unicorn }

/-- Identity of a concrete executive with a populated (forbidden) partition. -/
def executiveIdentity : Identity :=
  { typ := some demoV1Executive,
    tenancy := ⟨"default".toList, [], []⟩,
    name := "MusicMan".toList, uid := [] }

/-- A backend holding no records at all. -/
def missingBackend : Backend := fun _ _ => .error .notFound

/-- A backend holding a record at every identity. -/
def fullBackend : Backend := fun _ i => .ok ⟨i, "data".toList⟩

/-- A backend that cannot serve any read (for example, no quorum). -/
def unavailBackend : Backend := fun _ _ => .error .unavailable

/-- Registration whose GroupVersion is empty (failing the regex, but tripping
the earlier empty-field check). -/
def c10EmptyGvRegistration : Registration :=
  { typ := ⟨"demo".toList, [], "Artist".toList⟩, acls := none,
    validate := none, mutate := none, scope := .NamespaceScope }

/-- Registration whose GroupVersion is the non-empty string 2, failing the
regex while every field is non-empty. -/
def c10BadGvRegistration : Registration :=
  { typ := ⟨"demo".toList, "2".toList, "Artist".toList⟩, acls := none,
    validate := none, mutate := none, scope := .NamespaceScope }

/-- Read request for the stored label, no consistency preference. -/
def labelReadReq : ReadRequest := ⟨some labelIdentity, false⟩

/-- Read request for the artist, no consistency preference. -/
def artistReadReq : ReadRequest := ⟨some artistIdentity, false⟩

/-- Read request for the artist with the strong-consistency signal set. -/
def artistStrongReq : ReadRequest := ⟨some artistIdentity, true⟩

/-- Read request addressing the artist at the unregistered v1 version. -/
def artistV1ReadReq : ReadRequest := ⟨some artistV1Identity, false⟩

/-- Read request addressing the never-registered unicorn kind. -/
def unicornReadReq : ReadRequest := ⟨some unicornIdentity, false⟩

/-- Read request for the executive, carrying a forbidden partition. -/
def executiveReadReq : ReadRequest := ⟨some executiveIdentity, false⟩

/-- Number of dots in a string; splitting yields one more piece than this. -/
def countDots : List Char → Nat
  | [] => 0
  | c :: rest => (if c = '.' then 1 else 0) + countDots rest

theorem ne_false_eq_true {b : Bool} (h : ¬ b = false) : b = true := by
  cases b
  · exact absurd rfl h
  · rfl

theorem ne_true_eq_false {b : Bool} (h : ¬ b = true) : b = false := by
  cases b
  · rfl
  · exact absurd rfl h

theorem isOkE_eq_false_iff {ε α : Type} (x : Except ε α) :
    isOkE x = false ↔ ∃ e, x = .error e := by
  cases x <;> simp [isOkE]

theorem consHead_ne_nil (c : Char) (l : List (List Char)) : consHead c l ≠ [] := by
  cases l <;> simp [consHead]

theorem splitOnDot_ne_nil : ∀ xs : List Char, splitOnDot xs ≠ []
  | [] => by simp [splitOnDot]
  | c :: rest => by
    by_cases hc : c = '.' <;> simp [splitOnDot, hc, consHead_ne_nil]

theorem splitOnDot_noDot : ∀ xs : List Char, (∀ c ∈ xs, c ≠ '.') →
    splitOnDot xs = [xs]
  | [], _ => rfl
  | c :: rest, h => by
    have hc : c ≠ '.' := h c (List.mem_cons_self c rest)
    have ih := splitOnDot_noDot rest (fun d hd => h d (List.mem_cons_of_mem c hd))
    simp [splitOnDot, hc, ih, consHead]

theorem splitOnDot_append : ∀ xs ys : List Char, (∀ c ∈ xs, c ≠ '.') →
    splitOnDot (xs ++ '.' :: ys) = xs :: splitOnDot ys
  | [], ys, _ => by simp [splitOnDot]
  | c :: rest, ys, h => by
    have hc : c ≠ '.' := h c (List.mem_cons_self c rest)
    have ih := splitOnDot_append rest ys (fun d hd => h d (List.mem_cons_of_mem c hd))
    simp [splitOnDot, hc, ih, consHead]

theorem isLowerCh_ne_dot {c : Char} (h : isLowerCh c = true) : c ≠ '.' := by
  intro e; subst e; exact absurd h (by decide)

theorem isDigitCh_ne_dot {c : Char} (h : isDigitCh c = true) : c ≠ '.' := by
  intro e; subst e; exact absurd h (by decide)

theorem isGroupBodyChar_ne_dot {c : Char} (h : isGroupBodyChar c = true) : c ≠ '.' := by
  intro e; subst e; exact absurd h (by decide)

theorem isKindBodyChar_ne_dot {c : Char} (h : isKindBodyChar c = true) : c ≠ '.' := by
  intro e; subst e; exact absurd h (by decide)

theorem lowerOrDigit_ne_dot {c : Char} (h : (isLowerCh c || isDigitCh c) = true) :
    c ≠ '.' := by
  intro e; subst e; exact absurd h (by decide)

theorem gvTail_noDot : ∀ xs : List Char, gvTail xs = true → ∀ c ∈ xs, c ≠ '.'
  | [], h => by exact absurd h (by decide)
  | [c], h => by
    intro d hd
    have hc : isDigitCh c = true := h
    simp at hd
    subst hd
    exact isDigitCh_ne_dot hc
  | c :: c2 :: rest, h => by
    have h' : ((isLowerCh c || isDigitCh c) && gvTail (c2 :: rest)) = true := h
    rw [Bool.and_eq_true] at h'
    intro d hd
    rcases List.mem_cons.mp hd with rfl | hd2
    · exact lowerOrDigit_ne_dot h'.1
    · exact gvTail_noDot (c2 :: rest) h'.2 d hd2

theorem groupMatch_noDot : ∀ g : List Char, groupMatch g = true → ∀ c ∈ g, c ≠ '.'
  | [], h => by exact absurd h (by decide)
  | c :: rest, h => by
    have h' : (isLowerCh c && !rest.isEmpty && rest.all isGroupBodyChar) = true := h
    rw [Bool.and_eq_true, Bool.and_eq_true] at h'
    intro d hd
    rcases List.mem_cons.mp hd with rfl | hd2
    · exact isLowerCh_ne_dot h'.1.1
    · exact isGroupBodyChar_ne_dot (List.all_eq_true.mp h'.2 d hd2)

theorem gvMatch_noDot : ∀ g : List Char, gvMatch g = true → ∀ c ∈ g, c ≠ '.'
  | [], h => by exact absurd h (by decide)
  | c :: rest, h => by
    have h' : ((c == 'v') && gvTail rest) = true := h
    rw [Bool.and_eq_true] at h'
    intro d hd
    rcases List.mem_cons.mp hd with rfl | hd2
    · have : d = 'v' := eq_of_beq h'.1
      subst this; decide
    · exact gvTail_noDot rest h'.2 d hd2

theorem kindMatch_noDot : ∀ g : List Char, kindMatch g = true → ∀ c ∈ g, c ≠ '.'
  | [], h => by exact absurd h (by decide)
  | c :: rest, h => by
    have h' : (isUpperCh c && !rest.isEmpty && rest.all isKindBodyChar) = true := h
    rw [Bool.and_eq_true, Bool.and_eq_true] at h'
    intro d hd
    rcases List.mem_cons.mp hd with rfl | hd2
    · intro e; subst e; exact absurd h'.1.1 (by decide)
    · exact isKindBodyChar_ne_dot (List.all_eq_true.mp h'.2 d hd2)

theorem splitOnDot_toGVK (t : ResourceType) (h : validKey t) :
    splitOnDot (toGVK t) = [t.group, t.groupVersion, t.kind] := by
  obtain ⟨hg, hv, hk⟩ := h
  unfold toGVK
  rw [splitOnDot_append _ _ (groupMatch_noDot _ hg),
    splitOnDot_append _ _ (gvMatch_noDot _ hv),
    splitOnDot_noDot _ (kindMatch_noDot _ hk)]

theorem parse_toGVK (t : ResourceType) (h : validKey t) : parseGVK (toGVK t) = .ok t := by
  unfold parseGVK
  simp only [splitOnDot_toGVK t h]

theorem toGVK_inj {t1 t2 : ResourceType} (h1 : validKey t1) (h2 : validKey t2)
    (h : toGVK t1 = toGVK t2) : t1 = t2 := by
  have e1 := parse_toGVK t1 h1
  have e2 := parse_toGVK t2 h2
  rw [h, e2] at e1
  exact (Except.ok.inj e1).symm

theorem consHead_length (c : Char) (l : List (List Char)) (h : l ≠ []) :
    (consHead c l).length = l.length := by
  cases l
  · exact absurd rfl h
  · simp [consHead]

theorem splitOnDot_length : ∀ xs : List Char,
    (splitOnDot xs).length = countDots xs + 1
  | [] => rfl
  | c :: rest => by
    by_cases hc : c = '.'
    · simp [splitOnDot, countDots, hc, splitOnDot_length rest]
      omega
    · simp [splitOnDot, countDots, hc,
        consHead_length _ _ (splitOnDot_ne_nil rest), splitOnDot_length rest]

theorem parseGVK_ok_iff (s : List Char) :
    isOkE (parseGVK s) = true ↔ countDots s = 2 := by
  have hlen := splitOnDot_length s
  unfold parseGVK
  rcases hsp : splitOnDot s with _ | ⟨a, _ | ⟨b, _ | ⟨c, _ | ⟨d, tail⟩⟩⟩⟩ <;>
    rw [hsp] at hlen <;> simp [isOkE] at hlen ⊢ <;> omega

theorem groupMatch_ne_nil {g : List Char} (h : groupMatch g = true) : g ≠ [] := by
  intro e; rw [e] at h; exact absurd h (by decide)

theorem gvMatch_ne_nil {g : List Char} (h : gvMatch g = true) : g ≠ [] := by
  intro e; rw [e] at h; exact absurd h (by decide)

theorem kindMatch_ne_nil {g : List Char} (h : kindMatch g = true) : g ≠ [] := by
  intro e; rw [e] at h; exact absurd h (by decide)

theorem register_ok_of (s : RegistryState) (r : Registration)
    (hg : groupMatch r.typ.group = true) (hv : gvMatch r.typ.groupVersion = true)
    (hk : kindMatch r.typ.kind = true)
    (hc : containsKey s (toGVK r.typ) = false) :
    register s r = .ok ((toGVK r.typ, applyDefaults r) :: s) := by
  unfold register
  rw [if_neg, if_neg (by simp [hg]), if_neg (by simp [hv]), if_neg (by simp [hk]),
    if_neg (by simp [hc])]
  rintro (e | e | e)
  · exact groupMatch_ne_nil hg e
  · exact gvMatch_ne_nil hv e
  · exact kindMatch_ne_nil hk e

theorem register_ok_eq {s : RegistryState} {r : Registration} {s' : RegistryState}
    (h : register s r = .ok s') :
    s' = (toGVK r.typ, applyDefaults r) :: s := by
  unfold register at h
  split_ifs at h
  all_goals simp_all

theorem register_ok_iff (s : RegistryState) (r : Registration) :
    isOkE (register s r) = true ↔
      (groupMatch r.typ.group = true ∧ gvMatch r.typ.groupVersion = true ∧
       kindMatch r.typ.kind = true ∧ containsKey s (toGVK r.typ) = false) := by
  constructor
  · intro h
    unfold register at h
    split_ifs at h with h1 h2 h3 h4 h5
    · exact Bool.noConfusion h
    · exact Bool.noConfusion h
    · exact Bool.noConfusion h
    · exact Bool.noConfusion h
    · exact Bool.noConfusion h
    · exact ⟨ne_false_eq_true h2, ne_false_eq_true h3, ne_false_eq_true h4,
        ne_true_eq_false h5⟩
  · rintro ⟨hg, hv, hk, hc⟩
    rw [register_ok_of s r hg hv hk hc]
    rfl

theorem register_err_iff (s : RegistryState) (r : Registration) :
    (∃ e, register s r = .error e) ↔
      (groupMatch r.typ.group = false ∨ gvMatch r.typ.groupVersion = false ∨
       kindMatch r.typ.kind = false ∨ containsKey s (toGVK r.typ) = true) := by
  rw [← isOkE_eq_false_iff, ← Bool.not_eq_true, register_ok_iff]
  constructor
  · intro h
    by_contra hno
    push_neg at hno
    exact h ⟨ne_false_eq_true hno.1, ne_false_eq_true (hno.2.1),
      ne_false_eq_true (hno.2.2.1), ne_true_eq_false (hno.2.2.2)⟩
  · rintro (e | e | e | e) ⟨hg, hv, hk, hc⟩
    all_goals simp_all

theorem lookupKey_cons_self (k : List Char) (r : Registration) (s : RegistryState) :
    lookupKey ((k, r) :: s) k = some r := by
  simp [lookupKey]

theorem lookupKey_cons_ne {k key : List Char} (r : Registration) (s : RegistryState)
    (h : k ≠ key) : lookupKey ((k, r) :: s) key = lookupKey s key := by
  simp [lookupKey, h]

theorem lookupKey_cons_isSome {s : RegistryState} {key : List Char}
    (k : List Char) (r : Registration) (h : (lookupKey s key).isSome = true) :
    (lookupKey ((k, r) :: s) key).isSome = true := by
  by_cases hk : k = key <;> simp [lookupKey, hk, h]

theorem applyDefaults_complete (r : Registration) : completeReg (applyDefaults r) :=
  ⟨⟨_, rfl, rfl, rfl, rfl⟩, rfl, rfl⟩

theorem newRegistry_eq :
    NewRegistry = [(toGVK TypeV1Tombstone, applyDefaults tombstoneRegistration)] := rfl

theorem reachable_mem_complete {s : RegistryState} (h : Reachable s) :
    ∀ e ∈ s, completeReg e.2 := by
  induction h with
  | init =>
    intro e he
    rw [newRegistry_eq] at he
    simp at he
    rw [he]
    exact applyDefaults_complete _
  | step _ hok ih =>
    intro e he
    rw [register_ok_eq hok] at he
    rcases List.mem_cons.mp he with rfl | hmem
    · exact applyDefaults_complete _
    · exact ih e hmem

theorem reachable_tombstone {s : RegistryState} (h : Reachable s) :
    (resolve s TypeV1Tombstone).isSome = true := by
  induction h with
  | init => rfl
  | step _ hok ih =>
    rw [register_ok_eq hok]
    exact lookupKey_cons_isSome _ _ ih

theorem containsKey_cons_ne {k key : List Char} (r : Registration) (s : RegistryState)
    (h : k ≠ key) : containsKey ((k, r) :: s) key = containsKey s key := by
  unfold containsKey
  rw [lookupKey_cons_ne r s h]

theorem lookupKey_mem : ∀ {s : RegistryState} {key : List Char} {r : Registration},
    lookupKey s key = some r → (key, r) ∈ s := by
  intro s
  induction s with
  | nil => intro key r h; exact absurd h (by simp [lookupKey])
  | cons e rest ih =>
    intro key r h
    obtain ⟨k, r'⟩ := e
    by_cases hk : k = key
    · subst hk
      rw [lookupKey_cons_self] at h
      rw [← Option.some.inj h]
      exact List.mem_cons_self _ _
    · rw [lookupKey_cons_ne r' rest hk] at h
      exact List.mem_cons_of_mem _ (ih h)

theorem readPipeline_reaches {s : RegistryState} {b : Backend} {authz : Authorizer}
    {req : ReadRequest} {id : Identity} {typ : ResourceType} {reg : Registration}
    (h1 : req.id = some id) (h2 : id.typ = some typ) (h3 : id.name ≠ [])
    (h4 : resolveForRead s typ = .ok reg)
    (h5 : validateScope reg.scope id.tenancy = none) :
    readPipeline s b authz req =
      authorizeAndFetch reg authz id (b (chooseConsistency req) id) := by
  simp only [readPipeline, h1, h2, h4, h5]
  rw [if_neg h3]

theorem readPipeline_resolveErr {s : RegistryState} {b : Backend} {authz : Authorizer}
    {req : ReadRequest} {id : Identity} {typ : ResourceType} {e : ReadErr}
    (h1 : req.id = some id) (h2 : id.typ = some typ) (h3 : id.name ≠ [])
    (h4 : resolveForRead s typ = .error e) :
    readPipeline s b authz req = .error e := by
  simp only [readPipeline, h1, h2, h4]
  rw [if_neg h3]

theorem readPipeline_scopeErr {s : RegistryState} {b : Backend} {authz : Authorizer}
    {req : ReadRequest} {id : Identity} {typ : ResourceType} {reg : Registration}
    {e : ReadErr}
    (h1 : req.id = some id) (h2 : id.typ = some typ) (h3 : id.name ≠ [])
    (h4 : resolveForRead s typ = .ok reg)
    (h5 : validateScope reg.scope id.tenancy = some e) :
    readPipeline s b authz req = .error e := by
  simp only [readPipeline, h1, h2, h4, h5]
  rw [if_neg h3]

theorem validateScope_cluster_pos {t : Tenancy} (h : t.partition ≠ [] ∨ t.ns ≠ []) :
    ∃ e, validateScope .ClusterScope t = some e ∧ e.code = .invalidArgument := by
  unfold validateScope
  by_cases hp : t.partition ≠ []
  · exact ⟨.scopeViolation .ClusterScope .partitionField, if_pos hp, rfl⟩
  · have hn : t.ns ≠ [] := h.resolve_left hp
    exact ⟨.scopeViolation .ClusterScope .namespaceField,
      by rw [if_neg hp, if_pos hn], rfl⟩

theorem validateScope_partition_pos {t : Tenancy} (h : t.ns ≠ []) :
    ∃ e, validateScope .PartitionScope t = some e ∧ e.code = .invalidArgument := by
  unfold validateScope
  exact ⟨.scopeViolation .PartitionScope .namespaceField, if_pos h, rfl⟩

theorem validateScope_some_cases (sc : Scope) (t : Tenancy)
    (h : validateScope sc t ≠ none) :
    (sc = .ClusterScope ∧ (t.partition ≠ [] ∨ t.ns ≠ [])) ∨
    (sc = .PartitionScope ∧ t.ns ≠ []) := by
  cases sc <;> simp only [validateScope] at h
  · by_cases hp : t.partition ≠ []
    · exact Or.inl ⟨rfl, Or.inl hp⟩
    · rw [if_neg hp] at h
      by_cases hn : t.ns ≠ []
      · exact Or.inl ⟨rfl, Or.inr hn⟩
      · rw [if_neg hn] at h
        exact absurd rfl h
  · by_cases hn : t.ns ≠ []
    · exact Or.inr ⟨rfl, hn⟩
    · rw [if_neg hn] at h
      exact absurd rfl h
  · exact absurd rfl h

theorem resolveForRead_mismatch {s : RegistryState} {typ : ResourceType}
    {other : Registration} (hres : resolve s typ = none)
    (hfind : findGroupKind s typ = some other) :
    resolveForRead s typ =
      .error (.groupVersionMismatch typ.groupVersion other.typ.groupVersion) := by
  simp only [resolveForRead, hres, hfind]

theorem resolveForRead_notRegistered {s : RegistryState} {typ : ResourceType}
    (hres : resolve s typ = none) (hfind : findGroupKind s typ = none) :
    resolveForRead s typ = .error (.typeNotRegistered (toGVK typ)) := by
  simp only [resolveForRead, hres, hfind]

/-- C1: for a resolved registration with a data-dependent read ACL, a read of
an identity the backend holds no record for returns NotFound, never
PermissionDenied; a denial by an identity-only read hook returns
PermissionDenied regardless of whether the record exists. -/
theorem c1_read_acl_ordering
    (s : RegistryState) (b : Backend) (authz : Authorizer) (req : ReadRequest)
    (id : Identity) (typ : ResourceType) (reg : Registration)
    (h1 : req.id = some id) (h2 : id.typ = some typ) (h3 : id.name ≠ [])
    (h4 : resolveForRead s typ = .ok reg)
    (h5 : validateScope reg.scope id.tenancy = none) :
    (∀ f, readHookOf reg = .dataDependent f →
      b (chooseConsistency req) id = .error .notFound →
      readPipeline s b authz req = .error .notFound ∧
      readPipeline s b authz req ≠ .error .permissionDenied) ∧
    (∀ g, readHookOf reg = .identityOnly g → g authz id = .deny →
      readPipeline s b authz req = .error .permissionDenied) := by
  have hr := @readPipeline_reaches s b authz req id typ reg h1 h2 h3 h4 h5
  constructor
  · intro f hf hb
    have heq : readPipeline s b authz req = .error .notFound := by
      rw [hr]
      simp only [authorizeAndFetch, hf, hb, mapBackendErr]
    refine ⟨heq, ?_⟩
    rw [heq]
    simp
  · intro g hg hd
    rw [hr]
    simp only [authorizeAndFetch, hg, hd]

/-- Witness for C1: the concrete data-dependent label kind misses as NotFound
and the concrete identity-denying artist kind is denied although its record
exists. -/
theorem c1_read_acl_ordering_witness :
    readPipeline c1State missingBackend noOpAuthz labelReadReq = .error .notFound ∧
    readPipeline c1State fullBackend noOpAuthz artistReadReq =
      .error .permissionDenied := by
  constructor
  · exact ((c1_read_acl_ordering c1State missingBackend noOpAuthz labelReadReq
      labelIdentity demoV1RecordLabel (applyDefaults labelRegistration)
      rfl rfl (by decide) rfl rfl).1 (fun _ _ _ => .deny) rfl rfl).1
  · exact (c1_read_acl_ordering c1State fullBackend noOpAuthz artistReadReq
      artistIdentity demoV2Artist (applyDefaults artistDenyRegistration)
      rfl rfl (by decide) rfl rfl).2 (fun _ _ => .deny) rfl rfl

/-- C2, evaluated at the failing input: Register replaces a nil List hook by
the blanket operator-read default hook, which denies a caller lacking
operator:read even though the registration's own per-item Read hook allows
every request — the fallback-to-per-item-Read policy the documentation
states is not what the registry installs. -/
theorem c2_nil_list_hook_gets_blanket_default :
    (resolve c2State demoV2Artist).map listHookOf = some defaultListHook ∧
    ((resolve c2State demoV2Artist).map fun reg => listHookOf reg noOpAuthz) =
      some .deny ∧
    ((resolve c2State demoV2Artist).map fun reg =>
      applyReadHook reg noOpAuthz artistIdentity []) = some .allow :=
  ⟨rfl, rfl, rfl⟩

/-- C3: when the exact TypeKey is unregistered, the pipeline reports the
GroupVersion-mismatch InvalidArgument error if some registration shares
Group and Kind, and the distinct not-registered InvalidArgument error naming
the GVK otherwise. -/
theorem c3_gvk_mismatch_vs_not_registered
    (s : RegistryState) (b : Backend) (authz : Authorizer) (req : ReadRequest)
    (id : Identity) (typ : ResourceType)
    (h1 : req.id = some id) (h2 : id.typ = some typ) (h3 : id.name ≠ [])
    (hres : resolve s typ = none) :
    (∀ other, findGroupKind s typ = some other →
      readPipeline s b authz req =
        .error (.groupVersionMismatch typ.groupVersion other.typ.groupVersion)) ∧
    (findGroupKind s typ = none →
      readPipeline s b authz req = .error (.typeNotRegistered (toGVK typ))) ∧
    (∀ v1 v2 g, ReadErr.groupVersionMismatch v1 v2 ≠ .typeNotRegistered g ∧
      (ReadErr.groupVersionMismatch v1 v2).code = .invalidArgument ∧
      (ReadErr.typeNotRegistered g).code = .invalidArgument) := by
  refine ⟨?_, ?_, ?_⟩
  · intro other hfind
    exact readPipeline_resolveErr h1 h2 h3 (resolveForRead_mismatch hres hfind)
  · intro hfind
    exact readPipeline_resolveErr h1 h2 h3 (resolveForRead_notRegistered hres hfind)
  · intro v1 v2 g
    exact ⟨by simp, rfl, rfl⟩

/-- Witness for C3: reading demo.v1.Artist when only demo.v2.Artist is
registered names the two versions; reading demo.v2.Unicorn names the GVK. -/
theorem c3_gvk_mismatch_vs_not_registered_witness :
    readPipeline c3State missingBackend anyAuthz artistV1ReadReq =
      .error (.groupVersionMismatch "v1".toList "v2".toList) ∧
    readPipeline c3State missingBackend anyAuthz unicornReadReq =
      .error (.typeNotRegistered (toGVK demoV2Unicorn)) := by
  constructor
  · exact (c3_gvk_mismatch_vs_not_registered c3State missingBackend anyAuthz
      artistV1ReadReq artistV1Identity demoV1Artist rfl rfl (by decide) rfl).1
      (applyDefaults artistV2Registration) rfl
  · exact (c3_gvk_mismatch_vs_not_registered c3State missingBackend anyAuthz
      unicornReadReq unicornIdentity demoV2Unicorn rfl rfl (by decide) rfl).2.1 rfl

/-- C4: Register fails fatally exactly when some TypeKey component violates
its regex or the key is already registered, and two distinct valid keys both
register from any state not containing them and are then independently
resolvable. -/
theorem c4_register_fatal_iff_and_two_keys :
    (∀ s (r : Registration), (∃ e, register s r = .error e) ↔
      (groupMatch r.typ.group = false ∨ gvMatch r.typ.groupVersion = false ∨
       kindMatch r.typ.kind = false ∨ containsKey s (toGVK r.typ) = true)) ∧
    (∀ s (r1 r2 : Registration), validKey r1.typ → validKey r2.typ →
      r1.typ ≠ r2.typ →
      containsKey s (toGVK r1.typ) = false →
      containsKey s (toGVK r2.typ) = false →
      ∃ s1 s2, register s r1 = .ok s1 ∧ register s1 r2 = .ok s2 ∧
        (resolve s2 r1.typ).isSome = true ∧ (resolve s2 r2.typ).isSome = true) := by
  constructor
  · exact register_err_iff
  · intro s r1 r2 hv1 hv2 hne hc1 hc2
    obtain ⟨hg1, hgv1, hk1⟩ := hv1
    obtain ⟨hg2, hgv2, hk2⟩ := hv2
    have hkey : toGVK r1.typ ≠ toGVK r2.typ :=
      fun e => hne (toGVK_inj ⟨hg1, hgv1, hk1⟩ ⟨hg2, hgv2, hk2⟩ e)
    have hreg1 := register_ok_of s r1 hg1 hgv1 hk1 hc1
    have hc2' : containsKey ((toGVK r1.typ, applyDefaults r1) :: s)
        (toGVK r2.typ) = false := by
      rw [containsKey_cons_ne _ _ hkey]
      exact hc2
    have hreg2 := register_ok_of _ r2 hg2 hgv2 hk2 hc2'
    refine ⟨_, _, hreg1, hreg2, ?_, ?_⟩
    · unfold resolve
      rw [lookupKey_cons_ne _ _ (fun e => hkey e.symm), lookupKey_cons_self]
      rfl
    · unfold resolve
      rw [lookupKey_cons_self]
      rfl

/-- Witness for C4: Artist and Executive both register on the empty state and
both resolve afterwards. -/
theorem c4_register_fatal_iff_and_two_keys_witness :
    ∃ s1 s2, register [] artistV2Registration = .ok s1 ∧
      register s1 executiveRegistration = .ok s2 ∧
      (resolve s2 artistV2Registration.typ).isSome = true ∧
      (resolve s2 executiveRegistration.typ).isSome = true :=
  c4_register_fatal_iff_and_two_keys.2 [] artistV2Registration
    executiveRegistration (by decide) (by decide) (by decide) rfl rfl

/-- C5: the freshly constructed registry already resolves the Tombstone kind
to a registration whose hooks are exactly the operator-level defaults, and
every observable (reachable) registry state still resolves the Tombstone
kind. -/
theorem c5_tombstone_bootstrap :
    (∃ reg, resolve NewRegistry TypeV1Tombstone = some reg ∧
      reg.acls = some ⟨some defaultReadHook, some defaultWriteHook,
        some defaultListHook⟩ ∧
      reg.validate = some defaultValidationHook ∧
      reg.mutate = some defaultMutationHook) ∧
    (∀ s, Reachable s → (resolve s TypeV1Tombstone).isSome = true) := by
  constructor
  · exact ⟨applyDefaults tombstoneRegistration, rfl, rfl, rfl, rfl⟩
  · intro s h
    exact reachable_tombstone h

/-- Witness for C5 at the freshly constructed registry. -/
theorem c5_tombstone_bootstrap_witness :
    (resolve NewRegistry TypeV1Tombstone).isSome = true :=
  c5_tombstone_bootstrap.2 NewRegistry Reachable.init

/-- C6: with the kind resolved, a cluster-scoped read with populated
Partition or Namespace and a partition-scoped read with populated Namespace
fail in the InvalidArgument class, and the validator rejects only
forbidden-but-populated tenancy fields. -/
theorem c6_scope_tenancy_validation
    (s : RegistryState) (b : Backend) (authz : Authorizer) (req : ReadRequest)
    (id : Identity) (typ : ResourceType) (reg : Registration)
    (h1 : req.id = some id) (h2 : id.typ = some typ) (h3 : id.name ≠ [])
    (h4 : resolveForRead s typ = .ok reg) :
    (reg.scope = .ClusterScope →
      (id.tenancy.partition ≠ [] ∨ id.tenancy.ns ≠ []) →
      ∃ e, readPipeline s b authz req = .error e ∧ e.code = .invalidArgument) ∧
    (reg.scope = .PartitionScope → id.tenancy.ns ≠ [] →
      ∃ e, readPipeline s b authz req = .error e ∧ e.code = .invalidArgument) ∧
    (∀ sc t, validateScope sc t ≠ none →
      (sc = .ClusterScope ∧ (t.partition ≠ [] ∨ t.ns ≠ [])) ∨
      (sc = .PartitionScope ∧ t.ns ≠ [])) := by
  refine ⟨?_, ?_, validateScope_some_cases⟩
  · intro hsc hpop
    obtain ⟨e, he, hcode⟩ := validateScope_cluster_pos hpop
    exact ⟨e, readPipeline_scopeErr h1 h2 h3 h4 (by rw [hsc]; exact he), hcode⟩
  · intro hsc hpop
    obtain ⟨e, he, hcode⟩ := validateScope_partition_pos hpop
    exact ⟨e, readPipeline_scopeErr h1 h2 h3 h4 (by rw [hsc]; exact he), hcode⟩

/-- Witness for C6: reading the cluster-scoped executive with a populated
partition fails in the InvalidArgument class. -/
theorem c6_scope_tenancy_validation_witness :
    ∃ e, readPipeline c6State missingBackend anyAuthz executiveReadReq =
      .error e ∧ e.code = .invalidArgument :=
  (c6_scope_tenancy_validation c6State missingBackend anyAuthz executiveReadReq
    executiveIdentity demoV1Executive (applyDefaults executiveRegistration)
    rfl rfl (by decide) rfl).1 rfl (Or.inl (by decide))

/-- C7: a read that reaches the fetch stage consults the backend at exactly
the caller-selected consistency (eventual when unspecified, strong when
signalled), and a backend Unavailable is surfaced unchanged whenever the
identity-only hook does not deny first. -/
theorem c7_consistency_passthrough
    (s : RegistryState) (b : Backend) (authz : Authorizer) (req : ReadRequest)
    (id : Identity) (typ : ResourceType) (reg : Registration)
    (h1 : req.id = some id) (h2 : id.typ = some typ) (h3 : id.name ≠ [])
    (h4 : resolveForRead s typ = .ok reg)
    (h5 : validateScope reg.scope id.tenancy = none) :
    readPipeline s b authz req =
      authorizeAndFetch reg authz id (b (chooseConsistency req) id) ∧
    chooseConsistency req =
      (if req.strongConsistency then .strong else .eventual) ∧
    ((∀ g, readHookOf reg = .identityOnly g → g authz id = .allow) →
      b (chooseConsistency req) id = .error .unavailable →
      readPipeline s b authz req = .error .unavailable) := by
  have hr := @readPipeline_reaches s b authz req id typ reg h1 h2 h3 h4 h5
  refine ⟨hr, rfl, ?_⟩
  intro hall hb
  rw [hr]
  cases hhook : readHookOf reg with
  | identityOnly g =>
    have hg := hall g hhook
    simp only [authorizeAndFetch, hhook, hg, hb, mapBackendErr]
  | dataDependent f =>
    simp only [authorizeAndFetch, hhook, hb, mapBackendErr]

/-- Witness for C7: a strongly consistent read against a backend that cannot
serve it surfaces Unavailable. -/
theorem c7_consistency_passthrough_witness :
    readPipeline c3State unavailBackend anyAuthz artistStrongReq =
      .error .unavailable :=
  (c7_consistency_passthrough c3State unavailBackend anyAuthz artistStrongReq
    artistIdentity demoV2Artist (applyDefaults artistV2Registration)
    rfl rfl (by decide) rfl rfl).2.2
    (fun g hg => by
      have h2 : defaultReadHook = .identityOnly g := hg
      unfold defaultReadHook at h2
      injection h2 with h
      rw [← h]
      rfl)
    rfl

/-- C8: formatting then parsing a valid TypeKey is the identity; the demo
key formats to demo.v2.Artist; parsing succeeds exactly when the input has
exactly three dot-separated parts (two dots); empty segments are accepted. -/
theorem c8_gvk_roundtrip :
    (∀ t, validKey t → parseGVK (toGVK t) = .ok t) ∧
    toGVK demoV2Artist = "demo.v2.Artist".toList ∧
    (∀ s, isOkE (parseGVK s) = true ↔ countDots s = 2) ∧
    parseGVK "..".toList = .ok ⟨[], [], []⟩ :=
  ⟨parse_toGVK, rfl, parseGVK_ok_iff, rfl⟩

/-- Witness for C8 at the demo key. -/
theorem c8_gvk_roundtrip_witness :
    validKey demoV2Artist ∧ parseGVK (toGVK demoV2Artist) = .ok demoV2Artist :=
  ⟨by decide, c8_gvk_roundtrip.1 demoV2Artist (by decide)⟩

/-- C9: in every reachable registry state, every registration returned by
Resolve or Types carries populated ACL read, write and list hooks and
populated validation and mutation hooks. -/
theorem c9_hooks_never_nil (s : RegistryState) (h : Reachable s) :
    (∀ t reg, resolve s t = some reg → completeReg reg) ∧
    (∀ reg ∈ typesOf s, completeReg reg) := by
  have hmem := reachable_mem_complete h
  constructor
  · intro t reg hres
    exact hmem _ (lookupKey_mem hres)
  · intro reg hreg
    obtain ⟨e, he, hsnd⟩ := List.mem_map.mp hreg
    rw [← hsnd]
    exact hmem e he

/-- Witness for C9 at the freshly constructed registry. -/
theorem c9_hooks_never_nil_witness :
    ∃ reg, resolve NewRegistry TypeV1Tombstone = some reg ∧ completeReg reg :=
  ⟨applyDefaults tombstoneRegistration, rfl,
    (c9_hooks_never_nil NewRegistry Reachable.init).1 TypeV1Tombstone _ rfl⟩

/-- C10 counterexample: a Registration whose Group passes its regex and whose
GroupVersion (the empty string) fails its regex takes the earlier empty-field
panic, whose message interpolates nothing — not the GroupVersion-message
panic carrying the Group value the claim describes. -/
theorem c10_counterexample_empty_groupVersion :
    groupMatch c10EmptyGvRegistration.typ.group = true ∧
    gvMatch c10EmptyGvRegistration.typ.groupVersion = false ∧
    register [] c10EmptyGvRegistration = .error .emptyField ∧
    RegisterFatal.emptyField ≠
      .badGroupVersion c10EmptyGvRegistration.typ.group :=
  ⟨by decide, by decide, rfl, by decide⟩

/-- C10 as amended: whenever GroupVersion and Kind are non-empty, Group
passes its regex and GroupVersion fails its regex, the fatal error is the
GroupVersion message carrying the value of the Group field (registry.go:120
interpolates typ.Group). -/
theorem c10_groupVersion_message_interpolates_group
    (s : RegistryState) (r : Registration)
    (hgv : r.typ.groupVersion ≠ []) (hk : r.typ.kind ≠ [])
    (hg : groupMatch r.typ.group = true)
    (hbad : gvMatch r.typ.groupVersion = false) :
    register s r = .error (.badGroupVersion r.typ.group) := by
  unfold register
  rw [if_neg, if_neg (by simp [hg]), if_pos hbad]
  rintro (e | e | e)
  · exact groupMatch_ne_nil hg e
  · exact hgv e
  · exact hk e

/-- Witness for the amended C10 at GroupVersion 2. -/
theorem c10_groupVersion_message_interpolates_group_witness :
    register [] c10BadGvRegistration =
      .error (.badGroupVersion c10BadGvRegistration.typ.group) :=
  c10_groupVersion_message_interpolates_group [] c10BadGvRegistration
    (by decide) (by decide) (by decide) (by decide)

end ConsulRes
